import Mathlib

/-!
Shallow embedding of `examples/test-app.py`: an OpenTelemetry demo workload
generator.  Spans, the current-span context stack, and the scoped
`start_as_current_span` discipline are modelled as explicit state; Python
exceptions are modelled as values (`Exn`), with `KeyboardInterrupt`
distinguished from ordinary `Exception`s because `except Exception` does not
catch it; every call to the `random` module is modelled by an explicit input
(`r : Nat` seeds for `randint`/`choice`, a rational draw for `random.random()`,
and Boolean flags marking whether an external interrupt fires during a given
`time.sleep`).
-/

/-- Scalar attribute values a span attribute can hold. -/
inductive AttrValue where
  | str (s : String)
  | int (n : Int)
  | bool (b : Bool)
deriving DecidableEq

/-- Span status; the OTel SDK leaves it `unset` unless set explicitly or by
the scope wrapper on an escaping `Exception`. -/
inductive SpanStatus where
  | unset
  | ok
  | error (msg : String)
deriving DecidableEq

/-- One span: identifier, parent linkage, name, attributes (dict semantics:
setting a key overwrites it), append-only events, status, finished flag. -/
structure Span where
  spanId : Nat
  parentId : Option Nat
  name : String
  attributes : List (String × AttrValue)
  events : List (String × List (String × AttrValue))
  status : SpanStatus
  ended : Bool
deriving DecidableEq

/-- Look up an attribute on a span by key. -/
def Span.attr (s : Span) (k : String) : Option AttrValue :=
  (s.attributes.find? (fun p => p.1 == k)).map (fun p => p.2)

/-- Whether the span carries an event with the given name. -/
def Span.hasEvent (s : Span) (n : String) : Bool :=
  s.events.any (fun ev => ev.1 == n)

/-- Tracer-side state: the current-span context stack (innermost first), the
buffer of finished spans handed to the batch processor (in finish order), and
the next fresh span id. -/
structure Ctx where
  stack : List Span
  finished : List Span
  nextId : Nat
deriving DecidableEq

/-- Program start: empty context stack, empty buffer. -/
def Ctx.init : Ctx := ⟨[], [], 0⟩

/-- Python exceptions relevant to this program.  `exception` stands for the
`Exception` class raised on payment failure; `keyboardInterrupt` is the
external stop signal, which `except Exception` does not catch. -/
inductive Exn where
  | exception (msg : String)
  | keyboardInterrupt
deriving DecidableEq

/-- Whether `except Exception` catches this (it does not catch the stop
signal). -/
def Exn.isException : Exn → Bool
  | .exception _ => true
  | .keyboardInterrupt => false

/-- The message used when the exception is stringified or recorded. -/
def Exn.message : Exn → String
  | .exception m => m
  | .keyboardInterrupt => "KeyboardInterrupt"

/-- `tracer.start_as_current_span`, entry half: create a span with a fresh id,
parent = current top of the context stack (none if empty: a root), push it. -/
def startSpan (n : String) (c : Ctx) : Ctx :=
  { c with
    stack := ⟨c.nextId, (c.stack.head?).map Span.spanId, n, [], [], .unset, false⟩ :: c.stack
    nextId := c.nextId + 1 }

/-- `span.set_attribute` on the current span (dict overwrite semantics). -/
def setAttribute (k : String) (v : AttrValue) (c : Ctx) : Ctx :=
  match c.stack with
  | [] => c
  | s :: rest =>
      { c with
        stack := { s with
          attributes := s.attributes.filter (fun p => p.1 != k) ++ [(k, v)] } :: rest }

/-- `span.add_event` on the current span (append-only). -/
def addEvent (n : String) (attrs : List (String × AttrValue)) (c : Ctx) : Ctx :=
  match c.stack with
  | [] => c
  | s :: rest => { c with stack := { s with events := s.events ++ [(n, attrs)] } :: rest }

/-- Scope exit of `start_as_current_span`: on an escaping `Exception` the SDK
records the exception as an event and sets status Error; a `KeyboardInterrupt`
is not caught by the SDK's handler, but the `finally` still ends the span.  In
every case the span is popped and appended to the finished buffer. -/
def endSpan (e : Option Exn) (c : Ctx) : Ctx :=
  match c.stack with
  | [] => c
  | s :: rest =>
      let s' :=
        match e with
        | some ex =>
            if ex.isException then
              { s with
                events := s.events ++ [("exception", [("exception.message", .str ex.message)])]
                status := .error ex.message
                ended := true }
            else { s with ended := true }
        | none => { s with ended := true }
      { c with stack := rest, finished := c.finished ++ [s'] }

/-- The whole `with tracer.start_as_current_span(n) as span:` block: the body
runs between push and the guaranteed pop/finish; the exception outcome is
re-raised. -/
def withSpan (n : String) (body : Ctx → Option Exn × Ctx) (c : Ctx) : Option Exn × Ctx :=
  let c1 := startSpan n c
  let r := body c1
  (r.1, endSpan r.1 r.2)

/-- `time.sleep(...)`: the only effect visible to this model is that an
external interrupt may fire during the wait, raising `KeyboardInterrupt`. -/
def sleep (intr : Bool) (c : Ctx) : Option Exn × Ctx :=
  (if intr then some .keyboardInterrupt else none, c)

/-- `random.randint(lo, hi)`: inclusive on both ends; the abstract draw `r`
selects a value in the range. -/
def randint (lo hi : Nat) (r : Nat) : Nat := lo + r % (hi - lo + 1)

/-- `random.choice(xs)`: the abstract draw `r` selects an index. -/
def choice (xs : List String) (r : Nat) : String := xs.getD (r % xs.length) ""

/-- The failure probability `0.1` compared against `random.random()` in the
source, written in normalized rational form (see `pFail_eq`) so that concrete
runs evaluate inside the kernel. -/
def pFail : ℚ := ⟨1, 10, by decide, by decide⟩

/-- The random draws and interrupt schedule consumed by one
`process_order` invocation. -/
structure OrderInput where
  valueR : Nat
  vsleepIntr : Bool
  methodR : Nat
  psleepIntr : Bool
  failU : ℚ
  carrierR : Nat
  ssleepIntr : Bool
deriving DecidableEq

/-- `validate_order`: child span, `order.id` attribute, sleep, "Order
validated" event. -/
def validate_order (order_id : String) (intr : Bool) : Ctx → Option Exn × Ctx :=
  withSpan "validate_order" (fun c =>
    let c := setAttribute "order.id" (.str order_id) c
    match sleep intr c with
    | (some e, c) => (some e, c)
    | (none, c) => (none, addEvent "Order validated" [] c))

/-- `process_payment`: child span, `order.id` and random `payment.method`
attributes, sleep, then `if random.random() < 0.1` record the failure and
raise `Exception("Payment failed: insufficient funds")`, else record
success. -/
def process_payment (order_id : String) (methodR : Nat) (intr : Bool) (u : ℚ) :
    Ctx → Option Exn × Ctx :=
  withSpan "process_payment" (fun c =>
    let c := setAttribute "order.id" (.str order_id) c
    let c := setAttribute "payment.method"
      (.str (choice ["credit_card", "paypal", "bank_transfer"] methodR)) c
    match sleep intr c with
    | (some e, c) => (some e, c)
    | (none, c) =>
        if u < pFail then
          let c := setAttribute "error" (.bool true) c
          let c := addEvent "Payment failed" [("reason", .str "insufficient_funds")] c
          (some (.exception "Payment failed: insufficient funds"), c)
        else
          (none, addEvent "Payment processed successfully" [] c))

/-- `schedule_shipment`: child span, `order.id` and random `carrier`
attributes, sleep, "Shipment scheduled" event. -/
def schedule_shipment (order_id : String) (carrierR : Nat) (intr : Bool) :
    Ctx → Option Exn × Ctx :=
  withSpan "schedule_shipment" (fun c =>
    let c := setAttribute "order.id" (.str order_id) c
    let c := setAttribute "carrier" (.str (choice ["USPS", "FedEx", "UPS"] carrierR)) c
    match sleep intr c with
    | (some e, c) => (some e, c)
    | (none, c) => (none, addEvent "Shipment scheduled" [] c))

/-- `process_order`: root span with `order.id` and random `order.value`
attributes, then the three child steps in sequence; an exception from a child
aborts the remaining steps but the root scope still finishes its span. -/
def process_order (order_id : String) (inp : OrderInput) : Ctx → Option Exn × Ctx :=
  withSpan "process_order" (fun c =>
    let c := setAttribute "order.id" (.str order_id) c
    let c := setAttribute "order.value" (.int (randint 10 1000 inp.valueR)) c
    match validate_order order_id inp.vsleepIntr c with
    | (some e, c) => (some e, c)
    | (none, c) =>
        match process_payment order_id inp.methodR inp.psleepIntr inp.failU c with
        | (some e, c) => (some e, c)
        | (none, c) => schedule_shipment order_id inp.carrierR inp.ssleepIntr c)

/-! ### Decimal formatting and the driver loop (`main`) -/

/-- Big-endian decimal digit characters of `n`, with explicit recursion fuel
(any fuel above `n` is enough) so that concrete runs evaluate inside the
kernel. -/
def decCharsAux : Nat → Nat → List Char
  | 0, _ => []
  | f + 1, n =>
      if n < 10 then [Nat.digitChar n]
      else decCharsAux f (n / 10) ++ [Nat.digitChar (n % 10)]

/-- Python `str(n)` / `f-string` rendering of a non-negative integer. -/
def pyRepr (n : Nat) : String := ⟨decCharsAux (n + 1) n⟩

/-- Python `f"{n:05d}"`: the decimal rendering zero-padded on the left to a
minimum width of 5. -/
def pyFormat05 (n : Nat) : String :=
  ⟨List.replicate (5 - (decCharsAux (n + 1) n).length) '0' ++ decCharsAux (n + 1) n⟩

/-- The order id the driver loop passes to `process_order`:
`f"ORD-{order_counter:05d}"`. -/
def orderId (n : Nat) : String := "ORD-" ++ pyFormat05 n

/-- The console line `f"Error processing order {order_counter}: {e}"` printed
when the per-iteration handler catches a workflow failure. -/
def logLine (counter : Nat) (e : Exn) : String :=
  "Error processing order " ++ pyRepr counter ++ ": " ++ e.message

/-- One accumulator step when reading a decimal digit character. -/
def decStep (a : Nat) (c : Char) : Nat := a * 10 + (c.toNat - 48)

/-- Reads back the number encoded by a list of decimal digit characters;
used to invert `pyFormat05`. -/
def decParse (l : List Char) : Nat := l.foldl decStep 0

/-- Random draws and interrupt schedule consumed by one driver-loop
iteration: the draws of its `process_order` call plus whether the external
interrupt fires during the between-iterations `time.sleep`. -/
structure IterInput where
  ord : OrderInput
  loopSleepIntr : Bool
deriving DecidableEq

/-- Driver-loop state: the `order_counter` variable, the error lines printed
by the per-iteration handler, the order ids handed to `process_order` so far
(observation of the f-string evaluated each iteration), and the tracer
context. -/
structure LoopState where
  counter : Nat
  log : List String
  usedIds : List String
  ctx : Ctx
deriving DecidableEq

/-- Loop state at `main` entry: `order_counter = 1`, nothing logged, empty
tracer context. -/
def LoopState.start : LoopState := ⟨1, [], [], Ctx.init⟩

/-- Outcome of one `while True` iteration: proceed to the next iteration, or
a `KeyboardInterrupt` escaped the loop body. -/
inductive StepRes where
  | next (st : LoopState)
  | interrupted (st : LoopState)
deriving DecidableEq

/-- The tail of an iteration after the inner `try` block:
`order_counter += 1` followed by `time.sleep(random.uniform(1, 3))`, during
which the external interrupt may fire. -/
def afterTry (st : LoopState) (intr : Bool) : StepRes :=
  if intr then .interrupted { st with counter := st.counter + 1 }
  else .next { st with counter := st.counter + 1 }

/-- One iteration of the `while True` loop: run `process_order` under
`try/except Exception` (which logs caught workflow failures but does not
catch `KeyboardInterrupt`), then increment the counter and sleep. -/
def loopStep (it : IterInput) (st : LoopState) : StepRes :=
  let oid := orderId st.counter
  let r := process_order oid it.ord st.ctx
  let st' := { st with ctx := r.2, usedIds := st.usedIds ++ [oid] }
  match r.1 with
  | none => afterTry st' it.loopSleepIntr
  | some e =>
      if e.isException then
        afterTry { st' with log := st'.log ++ [logLine st.counter e] } it.loopSleepIntr
      else .interrupted st'

/-- Runs the `while True` loop over a finite schedule of iteration inputs.
Returns whether a `KeyboardInterrupt` escaped (`true`) together with the
state at that point; `false` means the schedule ran out with the loop still
running. -/
def runLoop : List IterInput → LoopState → Bool × LoopState
  | [], st => (false, st)
  | it :: rest, st =>
      match loopStep it st with
      | .next st' => runLoop rest st'
      | .interrupted st' => (true, st')

/-- Observable outcome of `main`: whether the run was stopped by the external
interrupt, whether `provider.force_flush()` ran, which buffered spans that
flush handed over, and the process exit code (`none` while still running). -/
structure MainRes where
  interrupted : Bool
  flushed : Bool
  flushedSpans : List Span
  exitCode : Option Nat
  final : LoopState
deriving DecidableEq

/-- The source's `main` (the name `main` is reserved in Lean): the
`while True` loop inside `try/except KeyboardInterrupt`; the handler performs
the final `provider.force_flush()` and `main` returns, so the process exits
with status 0. -/
def pyMain (iters : List IterInput) : MainRes :=
  let r := runLoop iters LoopState.start
  if r.1 then ⟨true, true, r.2.ctx.finished, some 0, r.2⟩
  else ⟨false, false, [], none, r.2⟩

/-! ### Startup configuration surface

The script constructs `OTLPSpanExporter(endpoint="http://localhost:4320/v1/traces")`,
`BatchSpanProcessor(otlp_exporter)` with no further arguments, and calls
`provider.force_flush()` with no argument.  The values below are the effective
settings as a function of the process environment at startup, following the
OpenTelemetry SDK's documented configuration handling (an explicit constructor
argument takes precedence over the environment; `BatchSpanProcessor` reads its
`OTEL_BSP_*` environment variables; `force_flush` uses its fixed default
timeout). -/

/-- Effective export endpoint: the source passes the endpoint explicitly, so
the environment is never consulted. -/
def effectiveEndpoint (_env : String → Option String) : String :=
  "http://localhost:4320/v1/traces"

/-- Reads a decimal number from an environment value, as the SDK's integer
configuration parsing does. -/
def parseEnvNat (s : String) : Option Nat :=
  if s.data.all Char.isDigit && !s.data.isEmpty then some (decParse s.data) else none

/-- Effective batch size threshold: `OTEL_BSP_MAX_EXPORT_BATCH_SIZE` if set to
a number, else the SDK default 512. -/
def effectiveMaxExportBatchSize (env : String → Option String) : Nat :=
  ((env "OTEL_BSP_MAX_EXPORT_BATCH_SIZE").bind parseEnvNat).getD 512

/-- Effective flush interval in milliseconds: `OTEL_BSP_SCHEDULE_DELAY` if set
to a number, else the SDK default 5000. -/
def effectiveScheduleDelayMillis (env : String → Option String) : Nat :=
  ((env "OTEL_BSP_SCHEDULE_DELAY").bind parseEnvNat).getD 5000

/-- Effective shutdown flush deadline in milliseconds: `force_flush()` is
called with no argument, so the fixed default 30000 applies whatever the
environment holds. -/
def effectiveForceFlushTimeoutMillis (_env : String → Option String) : Nat :=
  30000

/-- A configuration value is overridable at startup when some startup
environment changes it from its default (empty-environment) value. -/
def OverridableAtStartup {α : Type} (f : (String → Option String) → α) : Prop :=
  ∃ env : String → Option String, f env ≠ f (fun _ => none)

/-- A dummy span, used as the `List.getD` default when indexing into concrete
runs. -/
def dummySpan : Span := ⟨0, none, "", [], [], .unset, false⟩

/-! ### Helper lemmas -/

theorem pFail_eq : pFail = 0.1 := by
  rw [pFail, Rat.mk'_eq_divInt, Rat.divInt_eq_div]
  norm_num

theorem endSpan_stack (e : Option Exn) (c : Ctx) : (endSpan e c).stack = c.stack.tail := by
  obtain ⟨st, f, n⟩ := c
  cases st <;> simp [endSpan]

theorem validate_order_stack (oid : String) (i : Bool) (c : Ctx) :
    (validate_order oid i c).2.stack = c.stack := by
  cases i <;> simp [validate_order, withSpan, startSpan, setAttribute, addEvent, endSpan, sleep]

theorem process_payment_stack (oid : String) (r : Nat) (i : Bool) (u : ℚ) (c : Ctx) :
    (process_payment oid r i u c).2.stack = c.stack := by
  cases i <;>
    by_cases h : u < pFail <;>
      simp [process_payment, withSpan, startSpan, setAttribute, addEvent, endSpan, sleep,
        Exn.isException, h]

theorem schedule_shipment_stack (oid : String) (r : Nat) (i : Bool) (c : Ctx) :
    (schedule_shipment oid r i c).2.stack = c.stack := by
  cases i <;> simp [schedule_shipment, withSpan, startSpan, setAttribute, addEvent, endSpan, sleep]

theorem process_order_stack (oid : String) (inp : OrderInput) (c : Ctx) :
    (process_order oid inp c).2.stack = c.stack := by
  simp only [process_order, withSpan]
  rcases h1 : validate_order oid inp.vsleepIntr
      (setAttribute "order.value" (.int (randint 10 1000 inp.valueR))
        (setAttribute "order.id" (.str oid) (startSpan "process_order" c))) with ⟨e1, c1⟩
  have hs1 : c1.stack.tail = c.stack := by
    have h := validate_order_stack oid inp.vsleepIntr
      (setAttribute "order.value" (.int (randint 10 1000 inp.valueR))
        (setAttribute "order.id" (.str oid) (startSpan "process_order" c)))
    rw [h1] at h
    simp only [setAttribute, startSpan] at h
    rw [h]
    rfl
  cases e1 with
  | some e =>
      simp only [h1]
      rw [endSpan_stack, hs1]
  | none =>
      rcases h2 : process_payment oid inp.methodR inp.psleepIntr inp.failU c1 with ⟨e2, c2⟩
      have hs2 : c2.stack = c1.stack := by
        have h := process_payment_stack oid inp.methodR inp.psleepIntr inp.failU c1
        rw [h2] at h
        exact h
      cases e2 with
      | some e =>
          simp only [h1, h2]
          rw [endSpan_stack, hs2, hs1]
      | none =>
          rcases h3 : schedule_shipment oid inp.carrierR inp.ssleepIntr c2 with ⟨e3, c3⟩
          have hs3 : c3.stack = c2.stack := by
            have h := schedule_shipment_stack oid inp.carrierR inp.ssleepIntr c2
            rw [h3] at h
            exact h
          simp only [h1, h2, h3]
          rw [endSpan_stack, hs3, hs2, hs1]

/-- With no interrupt firing during the workflow's sleeps, `process_order`
raises the payment failure exactly when the payment draw is below `pFail`. -/
theorem process_order_exn (oid : String) (inp : OrderInput) (c : Ctx)
    (hv : inp.vsleepIntr = false) (hp : inp.psleepIntr = false)
    (hs : inp.ssleepIntr = false) :
    (process_order oid inp c).1 =
      if inp.failU < pFail then some (.exception "Payment failed: insufficient funds")
      else none := by
  obtain ⟨vr, vs, mr, ps, u, cr, ss⟩ := inp
  simp only at hv hp hs
  subst hv hp hs
  by_cases h : u < pFail <;>
    simp [process_order, validate_order, process_payment, schedule_shipment,
      withSpan, startSpan, setAttribute, addEvent, endSpan, sleep, Exn.isException, h]

/-- C5: every driver-loop iteration catches and logs a workflow failure raised
by the simulator inside the loop, then sleeps and proceeds to the next
iteration; a simulated domain failure never terminates the loop. -/
theorem C5_loop_survives_failure (it : IterInput) (st : LoopState)
    (h1 : it.ord.vsleepIntr = false) (h2 : it.ord.psleepIntr = false)
    (h3 : it.ord.ssleepIntr = false) (h4 : it.loopSleepIntr = false) :
    ∃ st', loopStep it st = .next st' ∧
      st'.counter = st.counter + 1 ∧
      st'.log = (if it.ord.failU < 0.1 then
          st.log ++ [logLine st.counter (.exception "Payment failed: insufficient funds")]
        else st.log) := by
  rw [← pFail_eq]
  have he := process_order_exn (orderId st.counter) it.ord st.ctx h1 h2 h3
  simp only [loopStep]
  by_cases hf : it.ord.failU < pFail
  · rw [if_pos hf] at he ⊢
    rw [he]
    simp [afterTry, h4, Exn.isException]
  · rw [if_neg hf] at he ⊢
    rw [he]
    simp [afterTry, h4]

/-- Witness for C5 at a concrete failing iteration (draw 0 forces the payment
failure): the loop still proceeds, with the counter advanced and the failure
logged. -/
theorem C5_witness :
    (0 : ℚ) < 0.1 ∧
    ∃ st', loopStep ⟨⟨0, false, 0, false, 0, 0, false⟩, false⟩ LoopState.start = .next st' ∧
      st'.counter = 2 ∧
      st'.log = [logLine 1 (.exception "Payment failed: insufficient funds")] := by
  have h := C5_loop_survives_failure ⟨⟨0, false, 0, false, 0, 0, false⟩, false⟩ LoopState.start
    rfl rfl rfl rfl
  refine ⟨by norm_num, ?_⟩
  obtain ⟨st', hstep, hc, hl⟩ := h
  refine ⟨st', hstep, by simpa using hc, ?_⟩
  rw [hl, if_pos (by norm_num)]
  rfl

/-- C1: on the payment-failure branch exactly 3 spans are finished (root,
validate, payment, in finish order), every finished span is ended, the
context stack is empty, no schedule_shipment span exists, the payment span
carries a "Payment failed" event with a reason attribute, and the root span
is finished despite the early abort. -/
theorem C1_payment_failure_spans (oid : String) (inp : OrderInput)
    (hv : inp.vsleepIntr = false) (hp : inp.psleepIntr = false)
    (hf : inp.failU < 0.1) :
    ((process_order oid inp Ctx.init).2.finished.map Span.name) =
      ["validate_order", "process_payment", "process_order"] ∧
    (∀ s ∈ (process_order oid inp Ctx.init).2.finished, s.ended = true) ∧
    (process_order oid inp Ctx.init).2.stack = [] ∧
    (∀ s ∈ (process_order oid inp Ctx.init).2.finished, s.name ≠ "schedule_shipment") ∧
    (∃ s ∈ (process_order oid inp Ctx.init).2.finished,
      s.name = "process_payment" ∧
      ∃ attrs, ("Payment failed", attrs) ∈ s.events ∧ ∃ v, ("reason", v) ∈ attrs) ∧
    (∃ s ∈ (process_order oid inp Ctx.init).2.finished,
      s.name = "process_order" ∧ s.ended = true) := by
  rw [← pFail_eq] at hf
  obtain ⟨vr, vs, mr, ps, u, cr, ss⟩ := inp
  simp only at hv hp
  subst hv hp
  simp only [process_order, validate_order, process_payment, schedule_shipment,
    withSpan, startSpan, setAttribute, addEvent, endSpan, sleep, Ctx.init,
    Exn.isException, Exn.message, if_pos hf]
  simp

/-- Witness for C1 at the concrete order "ORD-00001" with draw 0. -/
theorem C1_witness :
    ((⟨0, false, 0, false, 0, 0, false⟩ : OrderInput).failU < 0.1) ∧
    (((process_order "ORD-00001" ⟨0, false, 0, false, 0, 0, false⟩ Ctx.init).2.finished.map Span.name) =
      ["validate_order", "process_payment", "process_order"] ∧
    (∀ s ∈ (process_order "ORD-00001" ⟨0, false, 0, false, 0, 0, false⟩ Ctx.init).2.finished, s.ended = true) ∧
    (process_order "ORD-00001" ⟨0, false, 0, false, 0, 0, false⟩ Ctx.init).2.stack = [] ∧
    (∀ s ∈ (process_order "ORD-00001" ⟨0, false, 0, false, 0, 0, false⟩ Ctx.init).2.finished, s.name ≠ "schedule_shipment") ∧
    (∃ s ∈ (process_order "ORD-00001" ⟨0, false, 0, false, 0, 0, false⟩ Ctx.init).2.finished,
      s.name = "process_payment" ∧
      ∃ attrs, ("Payment failed", attrs) ∈ s.events ∧ ∃ v, ("reason", v) ∈ attrs) ∧
    (∃ s ∈ (process_order "ORD-00001" ⟨0, false, 0, false, 0, 0, false⟩ Ctx.init).2.finished,
      s.name = "process_order" ∧ s.ended = true)) :=
  ⟨by show (0:ℚ) < 0.1; norm_num,
   C1_payment_failure_spans "ORD-00001" ⟨0, false, 0, false, 0, 0, false⟩ rfl rfl
     (by show (0:ℚ) < 0.1; norm_num)⟩

/-- `random.choice` over a three-element list picks one of the three. -/
theorem choice_mem_three (a b c' : String) (r : Nat) : choice [a, b, c'] r ∈ [a, b, c'] := by
  have h3 : r % 3 = 0 ∨ r % 3 = 1 ∨ r % 3 = 2 := by omega
  rcases h3 with h | h | h <;> simp [choice, h]

/-- C2: `process_payment` opens a child span (parent = the span currently on
the stack), sets `order.id` and a `payment.method` drawn from the three
methods, and raises the workflow failure iff the draw is below 0.1; on that
branch and only then the span ends with Error status and a "Payment failed"
event carrying the reason, and on the success branch it records a
"Payment processed successfully" event. -/
theorem C2_process_payment (oid : String) (r : Nat) (u : ℚ) (c : Ctx)
    (s : Span) (rest : List Span) (hs : c.stack = s :: rest) :
    (process_payment oid r false u c).2.stack = c.stack ∧
    ∃ ps : Span,
      (process_payment oid r false u c).2.finished = c.finished ++ [ps] ∧
      ps.name = "process_payment" ∧
      ps.parentId = some s.spanId ∧
      ps.ended = true ∧
      ps.attr "order.id" = some (.str oid) ∧
      (∃ m, ps.attr "payment.method" = some (.str m) ∧
        m ∈ ["credit_card", "paypal", "bank_transfer"]) ∧
      (if u < 0.1 then
        (process_payment oid r false u c).1 =
          some (.exception "Payment failed: insufficient funds") ∧
        (∃ msg, ps.status = .error msg) ∧
        ("Payment failed", [("reason", .str "insufficient_funds")]) ∈ ps.events ∧
        ps.hasEvent "Payment processed successfully" = false
      else
        (process_payment oid r false u c).1 = none ∧
        ps.status = .unset ∧
        ps.hasEvent "Payment processed successfully" = true ∧
        ps.hasEvent "Payment failed" = false) := by
  rw [← pFail_eq]
  obtain ⟨st, fin, nid⟩ := c
  simp only at hs
  subst hs
  by_cases h : u < pFail <;>
    simp only [process_payment, withSpan, startSpan, setAttribute, addEvent, endSpan,
      sleep, Exn.isException, Exn.message, if_pos, if_neg, h, if_true, if_false] <;>
    simp [Span.attr, Span.hasEvent, h] <;>
    first
      | exact (by simpa using choice_mem_three "credit_card" "paypal" "bank_transfer" r)
      | refine ⟨by simpa using choice_mem_three "credit_card" "paypal" "bank_transfer" r, ?_⟩
  all_goals rintro a b (⟨rfl, -⟩ | ⟨rfl, -⟩) <;> decide

/-- Witness for C2 under a concrete parent span with draw 0. -/
theorem C2_witness :
    ((⟨[dummySpan], [], 1⟩ : Ctx).stack = dummySpan :: []) ∧
    ((process_payment "ORD-00001" 0 false 0 ⟨[dummySpan], [], 1⟩).2.stack = [dummySpan] ∧
    ∃ ps : Span,
      (process_payment "ORD-00001" 0 false 0 ⟨[dummySpan], [], 1⟩).2.finished = [ps] ∧
      ps.name = "process_payment" ∧
      ps.parentId = some 0 ∧
      ps.ended = true ∧
      ps.attr "order.id" = some (.str "ORD-00001") ∧
      (∃ m, ps.attr "payment.method" = some (.str m) ∧
        m ∈ ["credit_card", "paypal", "bank_transfer"]) ∧
      (if (0 : ℚ) < 0.1 then
        (process_payment "ORD-00001" 0 false 0 ⟨[dummySpan], [], 1⟩).1 =
          some (.exception "Payment failed: insufficient funds") ∧
        (∃ msg, ps.status = .error msg) ∧
        ("Payment failed", [("reason", .str "insufficient_funds")]) ∈ ps.events ∧
        ps.hasEvent "Payment processed successfully" = false
      else
        (process_payment "ORD-00001" 0 false 0 ⟨[dummySpan], [], 1⟩).1 = none ∧
        ps.status = .unset ∧
        ps.hasEvent "Payment processed successfully" = true ∧
        ps.hasEvent "Payment failed" = false)) :=
  ⟨rfl, C2_process_payment "ORD-00001" 0 0 ⟨[dummySpan], [], 1⟩ dummySpan [] rfl⟩

/-- C3 counterexample: with the failure branch not taken, the 4-span scenario
does arise, but it is false that every span has status Ok — the code never
sets Ok, so statuses remain Unset. -/
theorem C3_counterexample :
    ((process_order "ORD-00001" ⟨0, false, 0, false, 1, 0, false⟩ Ctx.init).2.finished.length = 4) ∧
    ¬ (∀ s ∈ (process_order "ORD-00001" ⟨0, false, 0, false, 1, 0, false⟩ Ctx.init).2.finished,
        s.status = SpanStatus.ok) := by decide

/-- C3 (amended): with the failure draw not below the threshold and no
interrupt, exactly 4 spans are produced (validate, payment, shipment, then
the root, in finish order), every span is ended with status Unset (not Ok:
the code never sets Ok, and no span has Error status), the root has exactly
3 descendants, and the shipment span carries the "Shipment scheduled"
event. -/
theorem C3_success_spans (oid : String) (inp : OrderInput)
    (hv : inp.vsleepIntr = false) (hp : inp.psleepIntr = false) (hs : inp.ssleepIntr = false)
    (hf : ¬ (inp.failU < 0.1)) :
    ((process_order oid inp Ctx.init).2.finished.map Span.name) =
      ["validate_order", "process_payment", "schedule_shipment", "process_order"] ∧
    (∀ s ∈ (process_order oid inp Ctx.init).2.finished,
      s.ended = true ∧ s.status = SpanStatus.unset) ∧
    (process_order oid inp Ctx.init).2.stack = [] ∧
    (∃ root ∈ (process_order oid inp Ctx.init).2.finished,
      root.name = "process_order" ∧ root.parentId = none ∧
      ((process_order oid inp Ctx.init).2.finished.filter
        (fun s => s.parentId == some root.spanId)).length = 3) ∧
    (∃ s ∈ (process_order oid inp Ctx.init).2.finished,
      s.name = "schedule_shipment" ∧ s.hasEvent "Shipment scheduled" = true) := by
  rw [← pFail_eq] at hf
  obtain ⟨vr, vs, mr, ps, u, cr, ss⟩ := inp
  simp only at hv hp hs
  subst hv hp hs
  simp only [process_order, validate_order, process_payment, schedule_shipment,
    withSpan, startSpan, setAttribute, addEvent, endSpan, sleep, Ctx.init,
    Exn.isException, Exn.message, if_neg hf]
  simp [Span.hasEvent]

/-- Witness for the amended C3 at the concrete order "ORD-00001". -/
theorem C3_witness :
    (¬ ((⟨0, false, 0, false, 1, 0, false⟩ : OrderInput).failU < 0.1)) ∧
    (((process_order "ORD-00001" ⟨0, false, 0, false, 1, 0, false⟩ Ctx.init).2.finished.map Span.name) =
      ["validate_order", "process_payment", "schedule_shipment", "process_order"] ∧
    (∀ s ∈ (process_order "ORD-00001" ⟨0, false, 0, false, 1, 0, false⟩ Ctx.init).2.finished,
      s.ended = true ∧ s.status = SpanStatus.unset) ∧
    (process_order "ORD-00001" ⟨0, false, 0, false, 1, 0, false⟩ Ctx.init).2.stack = [] ∧
    (∃ root ∈ (process_order "ORD-00001" ⟨0, false, 0, false, 1, 0, false⟩ Ctx.init).2.finished,
      root.name = "process_order" ∧ root.parentId = none ∧
      (((process_order "ORD-00001" ⟨0, false, 0, false, 1, 0, false⟩ Ctx.init).2.finished.filter
        (fun s => s.parentId == some root.spanId)).length = 3)) ∧
    (∃ s ∈ (process_order "ORD-00001" ⟨0, false, 0, false, 1, 0, false⟩ Ctx.init).2.finished,
      s.name = "schedule_shipment" ∧ s.hasEvent "Shipment scheduled" = true)) :=
  ⟨by show ¬ ((1 : ℚ) < 0.1); norm_num,
   C3_success_spans "ORD-00001" ⟨0, false, 0, false, 1, 0, false⟩ rfl rfl rfl
     (by show ¬ ((1 : ℚ) < 0.1); norm_num)⟩

/-- C4: `process_order` leaves the current-span context stack exactly as it
found it on every input — normal return, payment failure, or interrupt — and
in particular the stack is empty again after an invocation from the initial
context. -/
theorem C4_context_stack (oid : String) (inp : OrderInput) (c : Ctx) :
    (process_order oid inp c).2.stack = c.stack ∧
    (process_order oid inp Ctx.init).2.stack = [] :=
  ⟨process_order_stack oid inp c, process_order_stack oid inp Ctx.init⟩

/-- One loop iteration leaves the tracer's context stack unchanged, whether
it proceeds or is interrupted. -/
theorem loopStep_ctx_stack (it : IterInput) (st st' : LoopState)
    (h : loopStep it st = .next st' ∨ loopStep it st = .interrupted st') :
    st'.ctx.stack = st.ctx.stack := by
  have hpo := process_order_stack (orderId st.counter) it.ord st.ctx
  rcases hr : process_order (orderId st.counter) it.ord st.ctx with ⟨e, c2⟩
  rw [hr] at hpo
  rcases h with h | h <;>
    rcases hb : it.loopSleepIntr with _ | _ <;>
      rcases e with _ | (m | _) <;>
        simp only [loopStep, hr, hb, afterTry, Exn.isException, if_true, if_false,
          StepRes.next.injEq, StepRes.interrupted.injEq, reduceCtorEq] at h <;>
        first
          | exact h.elim
          | (subst h; exact hpo)

/-- The driver loop keeps the context stack empty throughout. -/
theorem runLoop_ctx_stack (iters : List IterInput) (st : LoopState)
    (h : st.ctx.stack = []) : ((runLoop iters st).2).ctx.stack = [] := by
  induction iters generalizing st with
  | nil => simpa [runLoop] using h
  | cons it rest ih =>
      simp only [runLoop]
      rcases hs : loopStep it st with st' | st'
      · exact ih st' ((loopStep_ctx_stack it st st' (Or.inl hs)).trans h)
      · simpa using (loopStep_ctx_stack it st st' (Or.inr hs)).trans h

/-- C6 counterexample: the stop signal CAN be observed in the middle of a
simulated workflow step — here it fires during `process_payment`'s sleep of
the only iteration, cutting that step short (the payment span ends with no
events and no shipment span is created), and the loop is interrupted; the
final flush still happens. -/
theorem C6_counterexample :
    (pyMain [⟨⟨0, false, 0, true, 1, 0, false⟩, false⟩]).interrupted = true ∧
    (pyMain [⟨⟨0, false, 0, true, 1, 0, false⟩, false⟩]).flushed = true ∧
    ((pyMain [⟨⟨0, false, 0, true, 1, 0, false⟩, false⟩]).final.ctx.finished.map Span.name) =
      ["validate_order", "process_payment", "process_order"] ∧
    (∃ s ∈ (pyMain [⟨⟨0, false, 0, true, 1, 0, false⟩, false⟩]).final.ctx.finished,
      s.name = "process_payment" ∧ s.events = []) := by decide

/-- C6 (amended): the stop signal may be observed at any sleep, including
mid-step; whenever the run is interrupted the loop performs a final flush of
exactly the buffered spans before the process exits, and no span is left
open (the context stack is empty at the flush). -/
theorem C6_interrupt_flush (iters : List IterInput)
    (h : (pyMain iters).interrupted = true) :
    (pyMain iters).flushed = true ∧
    (pyMain iters).flushedSpans = (pyMain iters).final.ctx.finished ∧
    (pyMain iters).final.ctx.stack = [] := by
  have hst := runLoop_ctx_stack iters LoopState.start rfl
  simp only [pyMain] at h ⊢
  rcases hr : runLoop iters LoopState.start with ⟨b, st⟩
  rw [hr] at h hst
  cases b <;> simp_all

/-- Witness for the amended C6: a run interrupted during the
between-iterations sleep. -/
theorem C6_witness :
    (pyMain [⟨⟨0, false, 0, false, 1, 0, false⟩, true⟩]).interrupted = true ∧
    ((pyMain [⟨⟨0, false, 0, false, 1, 0, false⟩, true⟩]).flushed = true ∧
    (pyMain [⟨⟨0, false, 0, false, 1, 0, false⟩, true⟩]).flushedSpans =
      (pyMain [⟨⟨0, false, 0, false, 1, 0, false⟩, true⟩]).final.ctx.finished ∧
    (pyMain [⟨⟨0, false, 0, false, 1, 0, false⟩, true⟩]).final.ctx.stack = []) :=
  ⟨by decide, C6_interrupt_flush [⟨⟨0, false, 0, false, 1, 0, false⟩, true⟩] (by decide)⟩

/-- C7: whenever the run is stopped by the external interrupt, the final
flush is performed and the process exits with status 0, regardless of how
many simulated workflow failures occurred. -/
theorem C7_graceful_exit (iters : List IterInput)
    (h : (pyMain iters).interrupted = true) :
    (pyMain iters).flushed = true ∧ (pyMain iters).exitCode = some 0 := by
  simp only [pyMain] at h ⊢
  rcases hr : runLoop iters LoopState.start with ⟨b, st⟩
  rw [hr] at h
  cases b <;> simp_all

/-- Witness for C7: a run whose single iteration hits the payment failure
(draw 0) and is then interrupted; exit is still graceful. -/
theorem C7_witness :
    (pyMain [⟨⟨0, false, 0, false, 0, 0, false⟩, true⟩]).interrupted = true ∧
    ((pyMain [⟨⟨0, false, 0, false, 0, 0, false⟩, true⟩]).flushed = true ∧
    (pyMain [⟨⟨0, false, 0, false, 0, 0, false⟩, true⟩]).exitCode = some 0) :=
  ⟨by decide, C7_graceful_exit [⟨⟨0, false, 0, false, 0, 0, false⟩, true⟩] (by decide)⟩

/-- C8 counterexample: the backend endpoint is NOT overridable at startup —
the script passes it as an explicit constructor argument, so no startup
environment changes it. -/
theorem C8_counterexample : ¬ OverridableAtStartup effectiveEndpoint :=
  fun h => h.elim (fun _ hne => hne rfl)

/-- C8 (amended): all four settings have defaults (endpoint
http://localhost:4320/v1/traces, batch size 512, flush interval 5000 ms,
shutdown flush deadline 30000 ms); batch size and flush interval are
overridable via the SDK's environment variables at startup, but the endpoint
and the shutdown flush deadline are fixed by the source. -/
theorem C8_config_surface :
    effectiveMaxExportBatchSize (fun _ => none) = 512 ∧
    effectiveScheduleDelayMillis (fun _ => none) = 5000 ∧
    OverridableAtStartup effectiveMaxExportBatchSize ∧
    OverridableAtStartup effectiveScheduleDelayMillis ∧
    (∀ env, effectiveEndpoint env = "http://localhost:4320/v1/traces") ∧
    (∀ env, effectiveForceFlushTimeoutMillis env = 30000) :=
  ⟨rfl, rfl,
   ⟨fun k => if k = "OTEL_BSP_MAX_EXPORT_BATCH_SIZE" then some "2" else none, by decide⟩,
   ⟨fun k => if k = "OTEL_BSP_SCHEDULE_DELAY" then some "100" else none, by decide⟩,
   fun _ => rfl, fun _ => rfl⟩

/-- Reading back a digit character yields the digit. -/
theorem digitChar_toNat (n : Nat) (h : n < 10) : (Nat.digitChar n).toNat - 48 = n := by
  interval_cases n <;> rfl

/-- Folding `decStep` over the digit characters of `n` recovers `n` (shifted
past the prior accumulator). -/
theorem decCharsAux_foldl (fuel : Nat) : ∀ n a, n < fuel →
    List.foldl decStep a (decCharsAux fuel n) =
      a * 10 ^ (decCharsAux fuel n).length + n := by
  induction fuel with
  | zero => intro n a h; omega
  | succ f ih =>
      intro n a h
      by_cases h10 : n < 10
      · simp [decCharsAux, h10, decStep, digitChar_toNat n h10]
      · have hd : n / 10 < f := by
          have h1 : n / 10 < n := Nat.div_lt_self (by omega) (by omega)
          omega
        simp only [decCharsAux, h10, if_false, if_neg, List.foldl_append]
        rw [ih (n / 10) a hd]
        simp only [List.length_append, List.length_singleton, List.foldl_cons,
          List.foldl_nil, decStep, digitChar_toNat (n % 10) (Nat.mod_lt n (by omega))]
        rw [pow_succ, ← Nat.mul_assoc]
        generalize a * 10 ^ (decCharsAux f (n / 10)).length = A
        omega

/-- Leading zero padding does not change the parsed value. -/
theorem foldl_zeros (k : Nat) : List.foldl decStep 0 (List.replicate k '0') = 0 := by
  induction k with
  | zero => rfl
  | succ k ih => simpa [List.replicate_succ, decStep] using ih

/-- `decParse` inverts the zero-padded decimal rendering. -/
theorem decParse_pyFormat05 (n : Nat) : decParse (pyFormat05 n).data = n := by
  show List.foldl decStep 0 (List.replicate _ '0' ++ decCharsAux (n + 1) n) = n
  rw [List.foldl_append, foldl_zeros, decCharsAux_foldl (n + 1) n 0 (Nat.lt_succ_self n)]
  simp

/-- Distinct counters yield distinct order ids. -/
theorem orderId_inj (m n : Nat) (h : orderId m = orderId n) : m = n := by
  have hd := congrArg String.data h
  simp only [orderId, String.data_append] at hd
  have hf : (pyFormat05 m).data = (pyFormat05 n).data := List.append_cancel_left hd
  have := congrArg decParse hf
  rwa [decParse_pyFormat05, decParse_pyFormat05] at this

/-- A proceeding iteration consumes exactly the id of the current counter and
advances the counter by one — also when the workflow failed and was caught. -/
theorem loopStep_next_ids (it : IterInput) (st st' : LoopState)
    (h : loopStep it st = .next st') :
    st'.usedIds = st.usedIds ++ [orderId st.counter] ∧ st'.counter = st.counter + 1 := by
  rcases hr : process_order (orderId st.counter) it.ord st.ctx with ⟨e, c2⟩
  rcases hb : it.loopSleepIntr with _ | _ <;>
    rcases e with _ | (m | _) <;>
      simp only [loopStep, hr, hb, afterTry, Exn.isException, if_true, if_false,
        StepRes.next.injEq, reduceCtorEq] at h <;>
      first
        | exact h.elim
        | (subst h; exact ⟨rfl, rfl⟩)

/-- Over any non-interrupted run, the loop consumes the ids of consecutive
counters starting at the initial counter, and the counter advances by the
number of iterations. -/
theorem runLoop_ids (iters : List IterInput) : ∀ st : LoopState, (runLoop iters st).1 = false →
    (runLoop iters st).2.usedIds =
      st.usedIds ++ (List.range iters.length).map (fun i => orderId (st.counter + i)) ∧
    (runLoop iters st).2.counter = st.counter + iters.length := by
  induction iters with
  | nil => intro st h; simp [runLoop]
  | cons it rest ih =>
      intro st h
      simp only [runLoop] at h ⊢
      rcases hs : loopStep it st with st' | st'
      · rw [hs] at h
        obtain ⟨h1, h2⟩ := loopStep_next_ids it st st' hs
        obtain ⟨h3, h4⟩ := ih st' h
        constructor
        · show (runLoop rest st').2.usedIds =
            st.usedIds ++ (List.range (it :: rest).length).map (fun i => orderId (st.counter + i))
          rw [h3, h1, h2, List.append_assoc]
          congr 1
          rw [List.length_cons, List.range_succ_eq_map, List.map_cons, List.map_map,
            List.singleton_append]
          congr 1
          refine List.map_congr_left fun i _ => ?_
          show orderId (st.counter + 1 + i) = orderId (st.counter + Nat.succ i)
          congr 1
          omega
        · show (runLoop rest st').2.counter = st.counter + (it :: rest).length
          rw [h4, h2]
          simp only [List.length_cons]
          omega
      · rw [hs] at h
        exact Bool.noConfusion h

/-- C9: a full (non-interrupted) run hands `process_order` the ids
`orderId 1, orderId 2, ...` in order — counter starting at 1, incremented by
exactly 1 per iteration including failed ones — all distinct
(`orderId` is injective), with `orderId 1 = "ORD-00001"` the zero-padded
form. -/
theorem C9_order_ids (iters : List IterInput) (h : (pyMain iters).interrupted = false) :
    (pyMain iters).final.usedIds = (List.range iters.length).map (fun i => orderId (i + 1)) ∧
    (pyMain iters).final.usedIds.Nodup ∧
    (∀ m n : Nat, orderId m = orderId n → m = n) ∧
    orderId 1 = "ORD-00001" := by
  have hinj : Function.Injective (fun i : Nat => orderId (i + 1)) := by
    intro a b hab
    have := orderId_inj _ _ hab
    omega
  have hrl : (runLoop iters LoopState.start).1 = false := by
    simp only [pyMain] at h
    rcases hr : runLoop iters LoopState.start with ⟨b, st⟩
    rw [hr] at h
    cases b
    · rfl
    · simp at h
  obtain ⟨h1, h2⟩ := runLoop_ids iters LoopState.start hrl
  have hmain : (pyMain iters).final = (runLoop iters LoopState.start).2 := by
    simp only [pyMain]
    rcases hr : runLoop iters LoopState.start with ⟨b, st⟩
    rw [hr] at hrl
    subst hrl
    simp
  have hids : (pyMain iters).final.usedIds =
      (List.range iters.length).map (fun i => orderId (i + 1)) := by
    rw [hmain, h1]
    show [] ++ (List.range iters.length).map (fun i => orderId (1 + i)) = _
    rw [List.nil_append]
    exact List.map_congr_left fun i _ => by congr 1; omega
  refine ⟨hids, ?_, orderId_inj, rfl⟩
  rw [hids]
  exact List.Nodup.map hinj (List.nodup_range iters.length)

/-- Witness for C9 on a one-iteration run. -/
theorem C9_witness :
    (pyMain [⟨⟨0, false, 0, false, 1, 0, false⟩, false⟩]).interrupted = false ∧
    ((pyMain [⟨⟨0, false, 0, false, 1, 0, false⟩, false⟩]).final.usedIds =
      (List.range 1).map (fun i => orderId (i + 1)) ∧
    (pyMain [⟨⟨0, false, 0, false, 1, 0, false⟩, false⟩]).final.usedIds.Nodup ∧
    (∀ m n : Nat, orderId m = orderId n → m = n) ∧
    orderId 1 = "ORD-00001") :=
  ⟨by decide, C9_order_ids [⟨⟨0, false, 0, false, 1, 0, false⟩, false⟩] (by decide)⟩

/-- `random.randint(10, 1000)` lands in the closed range [10, 1000]. -/
theorem randint_bounds (r : Nat) :
    10 ≤ ((randint 10 1000 r : Nat) : Int) ∧ ((randint 10 1000 r : Nat) : Int) ≤ 1000 := by
  have h : r % 991 < 991 := Nat.mod_lt r (by omega)
  unfold randint
  constructor <;> [skip; skip] <;> push_cast <;> omega

set_option maxHeartbeats 2000000 in
/-- C10: over every invocation of `process_order` (all draws and interrupt
schedules), any `order.value` attribute is in [10, 1000], any
`payment.method` is one of the three methods, any `carrier` is one of the
three carriers, and every "Payment failed" event carries exactly the reason
"insufficient_funds". -/
theorem C10_attribute_values (oid : String) (inp : OrderInput) :
    ∀ s ∈ (process_order oid inp Ctx.init).2.finished,
      (∀ v : Int, s.attr "order.value" = some (.int v) → 10 ≤ v ∧ v ≤ 1000) ∧
      (∀ m, s.attr "payment.method" = some (.str m) →
        m ∈ ["credit_card", "paypal", "bank_transfer"]) ∧
      (∀ cr, s.attr "carrier" = some (.str cr) → cr ∈ ["USPS", "FedEx", "UPS"]) ∧
      (∀ attrs, ("Payment failed", attrs) ∈ s.events →
        attrs = [("reason", AttrValue.str "insufficient_funds")]) := by
  obtain ⟨vr, vs, mr, ps, u, cr, ss⟩ := inp
  have hv := randint_bounds vr
  have hm := choice_mem_three "credit_card" "paypal" "bank_transfer" mr
  have hc := choice_mem_three "USPS" "FedEx" "UPS" cr
  cases vs <;> cases ps <;> cases ss <;> by_cases hu : u < pFail <;>
    simp only [process_order, validate_order, process_payment, schedule_shipment,
      withSpan, startSpan, setAttribute, addEvent, endSpan, sleep, Ctx.init,
      Exn.isException, Exn.message, hu, if_true, if_false, reduceIte] <;>
    simp_all [Span.attr, Span.hasEvent]

/-- Witness for C10 at the root span of a concrete successful run. -/
theorem C10_witness :
    ((process_order "ORD-00001" ⟨0, false, 0, false, 1, 0, false⟩ Ctx.init).2.finished.getD 3 dummySpan)
      ∈ (process_order "ORD-00001" ⟨0, false, 0, false, 1, 0, false⟩ Ctx.init).2.finished ∧
    ((∀ v : Int,
      ((process_order "ORD-00001" ⟨0, false, 0, false, 1, 0, false⟩ Ctx.init).2.finished.getD 3 dummySpan).attr
        "order.value" = some (.int v) → 10 ≤ v ∧ v ≤ 1000) ∧
    (∀ m,
      ((process_order "ORD-00001" ⟨0, false, 0, false, 1, 0, false⟩ Ctx.init).2.finished.getD 3 dummySpan).attr
        "payment.method" = some (.str m) → m ∈ ["credit_card", "paypal", "bank_transfer"]) ∧
    (∀ cr,
      ((process_order "ORD-00001" ⟨0, false, 0, false, 1, 0, false⟩ Ctx.init).2.finished.getD 3 dummySpan).attr
        "carrier" = some (.str cr) → cr ∈ ["USPS", "FedEx", "UPS"]) ∧
    (∀ attrs,
      ("Payment failed", attrs) ∈
        ((process_order "ORD-00001" ⟨0, false, 0, false, 1, 0, false⟩ Ctx.init).2.finished.getD 3 dummySpan).events →
      attrs = [("reason", AttrValue.str "insufficient_funds")])) :=
  ⟨by decide,
   C10_attribute_values "ORD-00001" ⟨0, false, 0, false, 1, 0, false⟩ _ (by decide)⟩
